import Mathlib

/-!
Shallow embedding of the decision logic in `src/main.py` of the
AI Automation Agency backend: the quiz-based recommendation engine
(`recommend`) and the rule-based chatbot (`chatbot`).

Python strings are modelled as `List Char`; Python's `str.lower()` is
modelled by mapping `Char.toLower` over the characters (all keywords and
all inputs of interest are ASCII, where the two coincide); Python's
substring test `k in text` is modelled by `substrOf`; the dict
comprehension `{rec.title: rec for rec in results}` is modelled by a
fold that keeps the first-insertion position of each title while letting
the last value for a title win, exactly as a Python dict does; Python's
stable `sorted(..., key=lambda r: r.priority)` is modelled by a stable
insertion sort on the priority field.
-/

/-- Strings of the Python program, as lists of characters. -/
abbrev Str := List Char

/-- Models Python `s.lower()` (ASCII range, as used by the program). -/
def lowerStr (s : Str) : Str := s.map Char.toLower

/-- The `Recommendation` pydantic model of `src/main.py`. -/
structure Recommendation where
  title : String
  description : String
  icon : String
  priority : Int
deriving DecidableEq

/-- The `QuizInput` pydantic model of `src/main.py` (three free strings). -/
structure QuizInput where
  industry : Str
  company_size : Str
  primary_goal : Str
deriving DecidableEq

/-- Entry 0 of `SERVICE_LIBRARY`. -/
def aiCustomerService : Recommendation :=
  ⟨"AI-driven Customer Service", "Virtuele agents, intent-herkenning en self-service flows.", "Headset", 1⟩

/-- Entry 1 of `SERVICE_LIBRARY`. -/
def marketingAutomation : Recommendation :=
  ⟨"Marketing Automation", "Personalisatie, lead scoring en lifecycle journeys.", "Sparkles", 2⟩

/-- Entry 2 of `SERVICE_LIBRARY`. -/
def mlApplications : Recommendation :=
  ⟨"ML Applications", "Voorspellende modellen, aanbevelers en detectie.", "BrainCircuit", 2⟩

/-- Entry 3 of `SERVICE_LIBRARY`. -/
def rpaIntegrations : Recommendation :=
  ⟨"RPA & Integrations", "Robotica voor repetitieve taken en systeemkoppelingen.", "Workflow", 3⟩

/-- Entry 4 of `SERVICE_LIBRARY`. -/
def analyticsDashboards : Recommendation :=
  ⟨"Analytics & Dashboards", "Realtime KPI’s met datamodellering en visualisatie.", "BarChart3", 3⟩

/-- The static `SERVICE_LIBRARY` catalog of `src/main.py`. -/
def SERVICE_LIBRARY : List Recommendation :=
  [aiCustomerService, marketingAutomation, mlApplications, rpaIntegrations, analyticsDashboards]

/-- Keyword list of the first `primary_goal` rule in `recommend`. -/
def supportGoals : List Str := ["support".toList, "customer support".toList, "cs".toList]

/-- Keyword list of the second `primary_goal` rule in `recommend`. -/
def marketingGoals : List Str := ["lead-gen".toList, "marketing".toList, "growth".toList, "revenue".toList]

/-- Keyword list of the third `primary_goal` rule in `recommend`. -/
def analyticsGoals : List Str := ["analytics".toList, "insights".toList, "reporting".toList]

/-- Keyword list of the fourth `primary_goal` rule in `recommend`. -/
def operationsGoals : List Str := ["operations".toList, "efficiency".toList, "process".toList]

/-- Keyword list of the first `industry` rule in `recommend`. -/
def ecommerceIndustries : List Str := ["ecommerce".toList, "e-commerce".toList]

/-- Keyword list of the second `industry` rule in `recommend`. -/
def financeIndustries : List Str := ["finance".toList, "fintech".toList, "financial".toList]

/-- Keyword list of the `company_size` rule in `recommend`. -/
def enterpriseSizes : List Str := ["enterprise".toList, "midmarket".toList]

/-- One step of the dict comprehension `{rec.title: rec for rec in results}`:
inserting a record keeps the first-insertion position of its title (as a
Python dict does on key re-assignment) while the last value wins. -/
def insertLastWins (acc : List Recommendation) (r : Recommendation) : List Recommendation :=
  if acc.any (fun x => x.title == r.title) then
    acc.map (fun x => if x.title == r.title then r else x)
  else
    acc ++ [r]

/-- The dict comprehension `{rec.title: rec for rec in results}` followed by
`.values()`: deduplication by title, last write wins, first-insertion order. -/
def dedupByTitle (rs : List Recommendation) : List Recommendation :=
  rs.foldl insertLastWins []

/-- Stable insertion of a record into a priority-sorted list: the record goes
before the first element of priority not smaller than its own. -/
def insertByPriority (x : Recommendation) : List Recommendation → List Recommendation
  | [] => [x]
  | y :: ys => if x.priority ≤ y.priority then x :: y :: ys else y :: insertByPriority x ys

/-- Models Python's stable `sorted(dedup.values(), key=lambda r: r.priority)`. -/
def sortByPriority : List Recommendation → List Recommendation
  | [] => []
  | x :: xs => insertByPriority x (sortByPriority xs)

/-- The `recommend` endpoint function of `src/main.py`, lines 166-196. -/
def recommend (payload : QuizInput) : List Recommendation :=
  let industry := lowerStr payload.industry
  let size := lowerStr payload.company_size
  let goal := lowerStr payload.primary_goal
  let results : List Recommendation := []
  let results := if goal ∈ supportGoals then results ++ [aiCustomerService] else results
  let results := if goal ∈ marketingGoals then results ++ [marketingAutomation] else results
  let results := if goal ∈ analyticsGoals then results ++ [analyticsDashboards] else results
  let results := if goal ∈ operationsGoals then results ++ [rpaIntegrations] else results
  let results := if industry ∈ ecommerceIndustries then results ++ [mlApplications] else results
  let results := if industry ∈ financeIndustries then results ++ [mlApplications] else results
  let results := if size ∈ enterpriseSizes then results ++ [rpaIntegrations] else results
  let results := if results = [] then [mlApplications, aiCustomerService, analyticsDashboards] else results
  sortByPriority (dedupByTitle results)

/-- The outcome of `recommend` as a function of the seven boolean rule tests
alone; `recommend` factors through this (see `recommend_eq_core`). -/
def recommendCore (g0 g1 g2 g3 i0 i1 s0 : Bool) : List Recommendation :=
  let results : List Recommendation := []
  let results := if g0 then results ++ [aiCustomerService] else results
  let results := if g1 then results ++ [marketingAutomation] else results
  let results := if g2 then results ++ [analyticsDashboards] else results
  let results := if g3 then results ++ [rpaIntegrations] else results
  let results := if i0 then results ++ [mlApplications] else results
  let results := if i1 then results ++ [mlApplications] else results
  let results := if s0 then results ++ [rpaIntegrations] else results
  let results := if results = [] then [mlApplications, aiCustomerService, analyticsDashboards] else results
  sortByPriority (dedupByTitle results)

/-- The quiz answer with all three fields set to the unmatched string "none". -/
def noneQuiz : QuizInput := ⟨"none".toList, "none".toList, "none".toList⟩

theorem recommend_eq_core (p : QuizInput) :
    recommend p = recommendCore
      (decide (lowerStr p.primary_goal ∈ supportGoals))
      (decide (lowerStr p.primary_goal ∈ marketingGoals))
      (decide (lowerStr p.primary_goal ∈ analyticsGoals))
      (decide (lowerStr p.primary_goal ∈ operationsGoals))
      (decide (lowerStr p.industry ∈ ecommerceIndustries))
      (decide (lowerStr p.industry ∈ financeIndustries))
      (decide (lowerStr p.company_size ∈ enterpriseSizes)) := by
  simp only [recommend, recommendCore, decide_eq_true_eq]

/-- The shape of the value built by the inner `reply` helper of the
`chatbot` endpoint of `src/main.py`. -/
structure ChatReply where
  reply : String
  intent : String
  suggestions : List String
deriving DecidableEq

/-- Character-list analogue of Python's prefix test, used to build the
substring test `substrOf`. -/
def startsWithChars : Str → Str → Bool
  | [], _ => true
  | _ :: _, [] => false
  | c :: k, d :: t => c == d && startsWithChars k t

/-- Models Python's substring containment test `k in text`. -/
def substrOf (k : Str) : Str → Bool
  | [] => k.isEmpty
  | c :: t => startsWithChars k (c :: t) || substrOf k t

/-- Models Python's `any(k in text for k in ks)`. -/
def containsAny (text : Str) (ks : List Str) : Bool :=
  ks.any (fun k => substrOf k text)

/-- Keyword list of the pricing bucket of `chatbot`. -/
def pricingKeywords : List Str :=
  ["prijs".toList, "kosten".toList, "tarief".toList, "offerte".toList, "pricing".toList, "price".toList]

/-- Keyword list of the process bucket of `chatbot`. -/
def processKeywords : List Str :=
  ["implement".toList, "implementatie".toList, "hoe werkt".toList, "proces".toList, "stappen".toList]

/-- Keyword list of the service-support bucket of `chatbot`. -/
def supportKeywords : List Str :=
  ["support".toList, "klantenservice".toList, "customer service".toList, "helpdesk".toList]

/-- Keyword list of the service-marketing bucket of `chatbot`. -/
def marketingKeywords : List Str :=
  ["marketing".toList, "lead".toList, "campagne".toList, "growth".toList]

/-- Keyword list of the service-ml bucket of `chatbot`. -/
def mlKeywords : List Str :=
  ["ml".toList, "machine learning".toList, "model".toList, "ai".toList]

/-- The `chatbot` endpoint function of `src/main.py`, lines 202-243; the
argument is the `message` field of the request (`msg.message or ""` only
replaces an empty/absent text by the empty string, which lowercases to
itself, so taking the text directly is faithful; the optional `context`
field is never read). -/
def chatbot (message : Str) : ChatReply :=
  let text := lowerStr message
  if containsAny text pricingKeywords then
    ⟨"Onze trajecten starten doorgaans vanaf €8.000 voor een pilot. Voor langdurige implementaties werken we met vaste sprints of een retainer. Zal ik een korte intake van 15 min inplannen?",
      "pricing", ["Plan een intake", "Stuur prijslijst", "Meer over pakketten"]⟩
  else if containsAny text processKeywords then
    ⟨"We starten met een AI Discovery (1-2 weken), vervolgens een pilot (4-6 weken) en daarna schaalvergroting. Alles is meetbaar met KPI’s en dashboards.",
      "process", ["Start Discovery", "Bekijk voorbeelden", "Meetbare KPI’s"]⟩
  else if containsAny text supportKeywords then
    ⟨"Voor support automatisering combineren we NLP met workflow-automatisering (RPA). Gemiddeld reduceren we responstijden met 50-70%.",
      "service-support", ["Plan demo virtuele agent", "Zie case retail", "Integraties"]⟩
  else if containsAny text marketingKeywords then
    ⟨"We bouwen scoring-modellen, personalisatie en journey-automatisering. Dit leidt vaak tot +10-25% conversie uplift.",
      "service-marketing", ["Plan marketing audit", "Voorbeeldflows", "CDP integratie"]⟩
  else if containsAny text mlKeywords then
    ⟨"We ontwikkelen productierijpe ML met MLOps best practices: monitoring, retraining en CI/CD voor modellen.",
      "service-ml", ["Architectuur voorbeelden", "Security & compliance", "Roadmap sessie"]⟩
  else
    ⟨"Hi! Ik ben je AI-assistent. Stel me een vraag over onze diensten, implementatie of prijzen, of vraag om een intake.",
      "general", ["Wat kost een pilot?", "Hoe ziet het proces eruit?", "Welke cases hebben jullie?"]⟩

theorem core_length_bounds : ∀ g0 g1 g2 g3 i0 i1 s0 : Bool,
    recommendCore g0 g1 g2 g3 i0 i1 s0 ≠ [] ∧
    1 ≤ (recommendCore g0 g1 g2 g3 i0 i1 s0).length ∧
    (recommendCore g0 g1 g2 g3 i0 i1 s0).length ≤ 5 := by decide

theorem core_titles_sorted : ∀ g0 g1 g2 g3 i0 i1 s0 : Bool,
    (recommendCore g0 g1 g2 g3 i0 i1 s0).Pairwise (fun a b => a.title ≠ b.title) ∧
    (recommendCore g0 g1 g2 g3 i0 i1 s0).Pairwise (fun a b => a.priority ≤ b.priority) := by decide

theorem core_length_le_three : ∀ g0 g1 g2 g3 i0 i1 s0 : Bool,
    (g0 && g1) = false → (g0 && g2) = false → (g0 && g3) = false →
    (g1 && g2) = false → (g1 && g3) = false → (g2 && g3) = false →
    (recommendCore g0 g1 g2 g3 i0 i1 s0).length ≤ 3 := by decide

theorem decide_mem_of_disjoint {a : Str} {l1 l2 : List Str} (h : ∀ x ∈ l1, x ∉ l2) :
    (decide (a ∈ l1) && decide (a ∈ l2)) = false := by
  by_cases h1 : a ∈ l1
  · by_cases h2 : a ∈ l2
    · exact absurd h2 (h a h1)
    · simp [h2]
  · simp [h1]

theorem toNat_ofNat_of_valid {n : Nat} (h : n.isValidChar) : (Char.ofNat n).toNat = n := by
  rw [Char.ofNat, dif_pos h]
  rfl

theorem toLower_idem (c : Char) : c.toLower.toLower = c.toLower := by
  simp only [Char.toLower]
  by_cases h : c.toNat ≥ 65 ∧ c.toNat ≤ 90
  · rw [if_pos h]
    have hv : Nat.isValidChar (c.toNat + 32) := Or.inl (by omega)
    rw [if_neg]
    rw [toNat_ofNat_of_valid hv]
    omega
  · rw [if_neg h, if_neg h]

theorem lowerStr_idem (s : Str) : lowerStr (lowerStr s) = lowerStr s := by
  simp [lowerStr, Function.comp_def, toLower_idem]

theorem toLower_of_whitespace {c : Char} (h : c.isWhitespace = true) : c.toLower = c := by
  simp only [Char.isWhitespace, Bool.or_eq_true, decide_eq_true_eq] at h
  rcases h with ((h | h) | h) | h <;> subst h <;> decide

theorem lowerStr_whitespace {t : Str} (h : ∀ c ∈ t, c.isWhitespace = true) :
    ∀ c ∈ lowerStr t, c.isWhitespace = true := by
  intro c hc
  simp only [lowerStr, List.mem_map] at hc
  obtain ⟨d, hd, rfl⟩ := hc
  rw [toLower_of_whitespace (h d hd)]
  exact h d hd

theorem startsWithChars_subset {k t : Str} (h : startsWithChars k t = true) :
    ∀ c ∈ k, c ∈ t := by
  induction k generalizing t with
  | nil => intro c hc; cases hc
  | cons a k ih =>
    cases t with
    | nil => cases h
    | cons d t =>
      simp only [startsWithChars, Bool.and_eq_true, beq_iff_eq] at h
      intro c hc
      rcases List.mem_cons.mp hc with rfl | hck
      · rw [h.1]; exact List.mem_cons_self d t
      · exact List.mem_cons_of_mem d (ih h.2 c hck)

theorem substrOf_subset {k t : Str} (h : substrOf k t = true) : ∀ c ∈ k, c ∈ t := by
  induction t with
  | nil =>
    simp only [substrOf, List.isEmpty_iff] at h
    subst h
    intro c hc; cases hc
  | cons d t ih =>
    simp only [substrOf, Bool.or_eq_true] at h
    rcases h with h | h
    · exact startsWithChars_subset h
    · intro c hc
      exact List.mem_cons_of_mem d (ih h c hc)

theorem containsAny_whitespace_false {t : Str} {ks : List Str}
    (hws : ∀ c ∈ t, c.isWhitespace = true)
    (hks : ∀ k ∈ ks, ∃ c ∈ k, c.isWhitespace = false) :
    containsAny t ks = false := by
  cases hct : containsAny t ks
  · rfl
  · exfalso
    simp only [containsAny, List.any_eq_true] at hct
    obtain ⟨k, hk, hsub⟩ := hct
    obtain ⟨c, hck, hcw⟩ := hks k hk
    rw [hws c (substrOf_subset hsub c hck)] at hcw
    cases hcw

/-- The quiz answer with each field lower-cased, as in the claim that
`recommend` is case-insensitive. -/
def lowerQuiz (p : QuizInput) : QuizInput :=
  ⟨lowerStr p.industry, lowerStr p.company_size, lowerStr p.primary_goal⟩

/-- Claim C1: for every `QuizInput` (any three strings), `recommend` returns a
non-empty list whose length is between 1 and 5. -/
theorem recommend_length_one_to_five (p : QuizInput) :
    recommend p ≠ [] ∧ 1 ≤ (recommend p).length ∧ (recommend p).length ≤ 5 := by
  rw [recommend_eq_core]
  exact core_length_bounds _ _ _ _ _ _ _

/-- Claim C2: for every `QuizInput`, the list returned by `recommend` has
pairwise distinct titles and is sorted by non-decreasing priority. -/
theorem recommend_unique_titles_sorted (p : QuizInput) :
    (recommend p).Pairwise (fun a b => a.title ≠ b.title) ∧
    (recommend p).Pairwise (fun a b => a.priority ≤ b.priority) := by
  rw [recommend_eq_core]
  exact core_titles_sorted _ _ _ _ _ _ _

/-- Claim C3, counterexample: on "Wat kost een implementatie?" the chatbot
intent is not "pricing" — no pricing keyword ("prijs", "kosten", "tarief",
"offerte", "pricing", "price") occurs as a substring: the text has "kost "
but not "kosten". -/
theorem chatbot_kost_not_pricing :
    (chatbot ("Wat kost een implementatie?".toList)).intent ≠ "pricing" := by decide

/-- Claim C3, amended: on "Wat kost een implementatie?" the chatbot returns
intent "process", because the process keyword "implement" occurs inside
"implementatie" and no earlier (pricing) keyword matches. -/
theorem chatbot_kost_process :
    (chatbot ("Wat kost een implementatie?".toList)).intent = "process" := by decide

/-- Claim C4, counterexample: with all three fields "none" the result of
`recommend` is not the trio in the order ML Applications, AI-driven Customer
Service, Analytics & Dashboards stated by the claim. -/
theorem recommend_none_not_claimed_order :
    recommend noneQuiz ≠ [mlApplications, aiCustomerService, analyticsDashboards] := by decide

/-- Claim C4, amended: with all three fields "none" (no rule matches),
`recommend` returns exactly the fallback trio sorted by ascending priority:
AI-driven Customer Service (1), ML Applications (2),
Analytics & Dashboards (3). -/
theorem recommend_none_fallback_trio :
    recommend noneQuiz = [aiCustomerService, mlApplications, analyticsDashboards] := by decide

/-- Claim C5: on "I need an ML model for support" the chatbot returns intent
"service-support": the service-support bucket is tested before the
service-ml bucket and its keyword "support" occurs in the text. -/
theorem chatbot_support_before_ml :
    (chatbot ("I need an ML model for support".toList)).intent = "service-support" := by decide

/-- Claim C6: for every whitespace-only message text (in particular the empty
string), the chatbot returns the default reply with intent "general" and
exactly 3 suggestions. -/
theorem chatbot_whitespace_general (t : Str) (h : ∀ c ∈ t, c.isWhitespace = true) :
    (chatbot t).intent = "general" ∧
    (chatbot t).reply = "Hi! Ik ben je AI-assistent. Stel me een vraag over onze diensten, implementatie of prijzen, of vraag om een intake." ∧
    (chatbot t).suggestions.length = 3 := by
  have hw := lowerStr_whitespace h
  have h1 : containsAny (lowerStr t) pricingKeywords = false :=
    containsAny_whitespace_false hw (by decide)
  have h2 : containsAny (lowerStr t) processKeywords = false :=
    containsAny_whitespace_false hw (by decide)
  have h3 : containsAny (lowerStr t) supportKeywords = false :=
    containsAny_whitespace_false hw (by decide)
  have h4 : containsAny (lowerStr t) marketingKeywords = false :=
    containsAny_whitespace_false hw (by decide)
  have h5 : containsAny (lowerStr t) mlKeywords = false :=
    containsAny_whitespace_false hw (by decide)
  have hchat : chatbot t =
      ⟨"Hi! Ik ben je AI-assistent. Stel me een vraag over onze diensten, implementatie of prijzen, of vraag om een intake.",
        "general", ["Wat kost een pilot?", "Hoe ziet het proces eruit?", "Welke cases hebben jullie?"]⟩ := by
    simp [chatbot, h1, h2, h3, h4, h5]
  rw [hchat]
  exact ⟨rfl, rfl, rfl⟩

/-- Witness for C6: the empty message satisfies the whitespace-only
hypothesis and gets the general reply with 3 suggestions. -/
theorem chatbot_whitespace_general_witness :
    (chatbot ([] : Str)).intent = "general" ∧
    (chatbot ([] : Str)).reply = "Hi! Ik ben je AI-assistent. Stel me een vraag over onze diensten, implementatie of prijzen, of vraag om een intake." ∧
    (chatbot ([] : Str)).suggestions.length = 3 :=
  chatbot_whitespace_general [] (by decide)

/-- Claim C7: `recommend` and `chatbot` are deterministic pure functions: two
calls with identical inputs yield identical outputs. -/
theorem recommend_chatbot_deterministic (p q : QuizInput) (m n : Str)
    (hpq : p = q) (hmn : m = n) :
    recommend p = recommend q ∧ chatbot m = chatbot n := by
  subst hpq
  subst hmn
  exact ⟨rfl, rfl⟩

/-- Witness for C7 at concrete equal inputs. -/
theorem recommend_chatbot_deterministic_witness :
    recommend noneQuiz = recommend noneQuiz ∧ chatbot ([] : Str) = chatbot ([] : Str) :=
  recommend_chatbot_deterministic noneQuiz noneQuiz [] [] rfl rfl

/-- Claim C8: `recommend` is case-insensitive in all three fields: it agrees
with its value on the field-wise lower-cased quiz answer. -/
theorem recommend_case_insensitive (p : QuizInput) :
    recommend p = recommend (lowerQuiz p) := by
  cases p with
  | mk i s g => simp only [recommend, lowerQuiz, lowerStr_idem]

/-- Claim C9: for every `QuizInput`, `recommend` returns at most 3 items: the
four goal keyword sets are pairwise disjoint so at most one goal rule fires,
both industry rules append the same item, and the company-size item equals
the operations-goal item. -/
theorem recommend_length_le_three (p : QuizInput) : (recommend p).length ≤ 3 := by
  rw [recommend_eq_core]
  apply core_length_le_three
  · exact decide_mem_of_disjoint (by decide)
  · exact decide_mem_of_disjoint (by decide)
  · exact decide_mem_of_disjoint (by decide)
  · exact decide_mem_of_disjoint (by decide)
  · exact decide_mem_of_disjoint (by decide)
  · exact decide_mem_of_disjoint (by decide)

/-- Claim C10: chatbot matching is substring containment, so the message
"html", which contains "ml" only inside the word "html", gets intent
"service-ml". -/
theorem chatbot_incidental_ml :
    (chatbot ("html".toList)).intent = "service-ml" := by decide
